import Mathlib

/-!
Shallow embedding of the thermodynamic core of Boilingwater.app
(`src/src/App.jsx`): the ISA atmospheric pressure model, the Antoine
vapor-pressure solver, boiling-point resolution with colligative
elevation, the heat-transfer engine, and the per-tick simulation step.

JavaScript numbers are modelled as real numbers.  The few places where a
claim depends on IEEE special values (`null` / `undefined` / `NaN` /
`±Infinity` altitude inputs) are modelled by an explicit inductive of
JavaScript altitude values, with the IEEE propagation worked out in
comments at each constructor.  Optional / possibly-non-finite record
fields are modelled as `Option ℝ` (`none` = absent, `NaN`, or otherwise
failing the source's `Number.isFinite` / truthiness guard).
-/

namespace BoilingWater

/-- Modelled from the spec: `ATMOSPHERE.STANDARD_PRESSURE` is imported from
`src/constants/physics`, which is not among the provided sources; the spec
(section 4.1) and the source comment (`App.jsx` line 245) both give
101325 Pa. -/
def STANDARD_PRESSURE : ℝ := 101325

/-- Modelled from the spec: `ATMOSPHERE.TEMP_LAPSE_RATE` (the universal
default lapse rate for the linear boiling-point fallback) is imported from
`src/constants/physics`, which is not among the provided sources, and the
spec gives no numeric value ("a universal default").  No theorem below
depends on this value. -/
def TEMP_LAPSE_RATE : ℝ := 0.0035

/-- Modelled from the spec: `GAME_CONFIG.ROOM_TEMPERATURE` is imported from
`src/constants/physics`, which is not among the provided sources; the spec
(section 4.6) gives the ambient default as 20 °C, and `App.jsx` line 586
defaults to 20 via `|| 20`. -/
def ROOM_TEMPERATURE : ℝ := 20

/-- Exponent `g·M/(R·L)` of the ISA troposphere formula
(`App.jsx` lines 246-248, 258, 263). -/
noncomputable def isaExponent : ℝ := (9.80665 * 0.0289644) / (8.31447 * 0.0065)

/-- Embedded from `calculatePressure` (`App.jsx` lines 238-267), restricted
to finite real altitudes (the `null`/`undefined`/`NaN`/`±Infinity` inputs
are handled by `jsCalculatePressure` below, which delegates to this
function on the finite path).  `T = 288.15 - 0.0065·altitude`; if `T ≤ 0`
the source returns the pressure computed at the 11 km boundary
(`T11km = 288.15 - 0.0065·11000`), otherwise `P0·(T/T0)^(gM/RL)`. -/
noncomputable def calculatePressure (altitude : ℝ) : ℝ :=
  if 288.15 - 0.0065 * altitude ≤ 0 then
    STANDARD_PRESSURE * (((288.15 - 0.0065 * 11000) / 288.15) ^ isaExponent : ℝ)
  else
    STANDARD_PRESSURE * (((288.15 - 0.0065 * altitude) / 288.15) ^ isaExponent : ℝ)

lemma isaExponent_pos : 0 < isaExponent := by norm_num [isaExponent]

lemma calculatePressure_of_pos {a : ℝ} (h : 0 < 288.15 - 0.0065 * a) :
    calculatePressure a
      = STANDARD_PRESSURE * ((288.15 - 0.0065 * a) / 288.15) ^ isaExponent := by
  rw [calculatePressure, if_neg (not_le.mpr h)]

lemma calculatePressure_of_clamp {a : ℝ} (h : 288.15 - 0.0065 * a ≤ 0) :
    calculatePressure a
      = STANDARD_PRESSURE * ((288.15 - 0.0065 * 11000) / 288.15) ^ isaExponent := by
  rw [calculatePressure, if_pos h]

lemma calculatePressure_11000 :
    calculatePressure 11000
      = STANDARD_PRESSURE * ((288.15 - 0.0065 * 11000) / 288.15) ^ isaExponent := by
  rw [calculatePressure_of_pos (by norm_num)]

/-- On the `T ≤ 0` branch the source returns exactly the value it computes
at 11000 m, so all clamped altitudes agree with `calculatePressure 11000`. -/
lemma pressure_clamp_eq {a : ℝ} (h : 288.15 - 0.0065 * a ≤ 0) :
    calculatePressure a = calculatePressure 11000 := by
  rw [calculatePressure_of_clamp h, calculatePressure_11000]

/-- Between 11 km and the `T ≤ 0` threshold (about 44331 m) the ISA formula
keeps running and gives strictly less than the 11 km value: there is no
plateau starting at 11 km. -/
lemma pressure_lt_clamp {a : ℝ} (h1 : 11000 < a) (h2 : 0 < 288.15 - 0.0065 * a) :
    calculatePressure a < calculatePressure 11000 := by
  rw [calculatePressure_of_pos h2, calculatePressure_11000]
  have hP0 : (0:ℝ) < STANDARD_PRESSURE := by norm_num [STANDARD_PRESSURE]
  refine mul_lt_mul_of_pos_left ?_ hP0
  refine Real.rpow_lt_rpow (div_nonneg h2.le (by norm_num)) ?_ isaExponent_pos
  have hmul : 0.0065 * 11000 < 0.0065 * a :=
    mul_lt_mul_of_pos_left h1 (by norm_num)
  have hlt : 288.15 - 0.0065 * a < 288.15 - 0.0065 * 11000 := by linarith
  exact (div_lt_div_iff_of_pos_right (by norm_num)).mpr hlt

/-- Monotonicity of the ISA formula on the region where the modelled
temperature stays positive. -/
lemma pressure_mono {a1 a2 : ℝ} (h0 : 0 ≤ a1) (h12 : a1 ≤ a2)
    (h2 : 0 < 288.15 - 0.0065 * a2) :
    calculatePressure a2 ≤ calculatePressure a1 := by
  have hmul : 0.0065 * a1 ≤ 0.0065 * a2 :=
    mul_le_mul_of_nonneg_left h12 (by norm_num)
  have h1 : 0 < 288.15 - 0.0065 * a1 := by linarith
  rw [calculatePressure_of_pos h1, calculatePressure_of_pos h2]
  have hP0 : (0:ℝ) ≤ STANDARD_PRESSURE := by norm_num [STANDARD_PRESSURE]
  refine mul_le_mul_of_nonneg_left ?_ hP0
  refine Real.rpow_le_rpow (div_nonneg h2.le (by norm_num)) ?_ isaExponent_pos.le
  have hle : 288.15 - 0.0065 * a2 ≤ 288.15 - 0.0065 * a1 := by linarith
  exact (div_le_div_iff_of_pos_right (by norm_num)).mpr hle

/-- Sea level: `T = 288.15 > 0`, so `P = P0·(288.15/288.15)^e = P0·1^e`. -/
lemma pressure_zero : calculatePressure 0 = 101325 := by
  rw [calculatePressure_of_pos (by norm_num)]
  norm_num [STANDARD_PRESSURE, Real.one_rpow]

/-- The clamp value is strictly below sea-level pressure, since the base
`216.65/288.15` lies in `(0,1)` and the exponent is positive. -/
lemma clamp_lt_sea_level : calculatePressure 11000 < 101325 := by
  rw [calculatePressure_11000]
  have h1 : ((288.15 - 0.0065 * 11000) / 288.15 : ℝ) ^ isaExponent < 1 :=
    Real.rpow_lt_one (by norm_num) (by norm_num) isaExponent_pos
  have : STANDARD_PRESSURE * (((288.15 - 0.0065 * 11000) / 288.15 : ℝ) ^ isaExponent)
      < STANDARD_PRESSURE * 1 :=
    mul_lt_mul_of_pos_left h1 (by norm_num [STANDARD_PRESSURE])
  simpa [STANDARD_PRESSURE] using this

/-- JavaScript altitude argument values relevant to the non-finite-input
claims: `null`, `undefined`, `NaN`, `+Infinity`, `-Infinity`, or a finite
number. -/
inductive JSAltitude where
  | null
  | undefined
  | nan
  | posInf
  | negInf
  | num (x : ℝ)

/-- JavaScript number results of `calculatePressure` (finite or infinite). -/
inductive JSPressure where
  | posInf
  | num (x : ℝ)

/-- Embedded from `calculatePressure` (`App.jsx` lines 238-267) over the full
range of JavaScript altitude inputs.  The guard on lines 239-240 replaces
only `null`, `undefined` and `NaN` by 0; `Number.isNaN(±Infinity)` is
`false`, so the infinities flow into the arithmetic:
* `+Infinity`: `T = 288.15 - 0.0065·(+∞) = -∞ ≤ 0`, so the `T ≤ 0` branch
  returns the finite 11 km clamp value `P0·(T11km/T0)^(gM/RL)`;
* `-Infinity`: `T = 288.15 - 0.0065·(-∞) = +∞ > 0`, and
  `P0·Math.pow(+∞/288.15, gM/(RL)) = P0·(+∞) = +Infinity`.
Finite inputs delegate to `calculatePressure`. -/
noncomputable def jsCalculatePressure (altitude : JSAltitude) : JSPressure :=
  match altitude with
  | .null | .undefined | .nan => .num (calculatePressure 0)
  | .num x => .num (calculatePressure x)
  | .posInf =>
      .num (STANDARD_PRESSURE * ((288.15 - 0.0065 * 11000) / 288.15) ^ isaExponent)
  | .negInf => .posInf

/-- Antoine coefficient record `{A, B, C, TminC, TmaxC}` from a substance
definition (`App.jsx` line 88).  `TminC`/`TmaxC` are `Option` because the
source only uses them through `Number.isFinite` checks. -/
structure AntoineCoeffs where
  A : ℝ
  B : ℝ
  C : ℝ
  TminC : Option ℝ
  TmaxC : Option ℝ

/-- Result record of `solveAntoineEquation` (`App.jsx` lines 116-123); the
`verifiedRange` object is flattened into its `min`/`max` fields. -/
structure AntoineResult where
  temperature : ℝ
  isExtrapolated : Bool
  verifiedRangeMin : Option ℝ
  verifiedRangeMax : Option ℝ

/-- Embedded from `solveAntoineEquation` (`App.jsx` lines 85-124).  The JS
truthiness guard `if (!A || !B || !C) return null` rejects a zero (or `NaN`,
not modelled in ℝ) coefficient.  `1 Pa = 1/133.322 mmHg`;
`denominator = A - log10(pressureMmHg)`; a denominator smaller than `1e-10`
in absolute value yields `null`; otherwise `T = B/denominator - C` and the
verified-range metadata is computed without clamping. -/
noncomputable def solveAntoineEquation (pressurePa : ℝ)
    (antoineCoeffs : Option AntoineCoeffs) : Option AntoineResult :=
  match antoineCoeffs with
  | none => none
  | some coeffs =>
    if coeffs.A = 0 ∨ coeffs.B = 0 ∨ coeffs.C = 0 then none
    else
      let pressureMmHg := pressurePa / 133.322
      let logP := Real.logb 10 pressureMmHg
      let denominator := coeffs.A - logP
      if |denominator| < 1e-10 then none
      else
        let boilingPoint := coeffs.B / denominator - coeffs.C
        let belowMin : Bool :=
          match coeffs.TminC with
          | some tmin => if boilingPoint < tmin then true else false
          | none => false
        let aboveMax : Bool :=
          match coeffs.TmaxC with
          | some tmax => if boilingPoint > tmax then true else false
          | none => false
        some ⟨boilingPoint, belowMin || aboveMax, coeffs.TminC, coeffs.TmaxC⟩

/-- Substance property record consumed by the core (`App.jsx`).  Fields that
the source reads through `Number.isFinite` or truthiness guards are
`Option ℝ` (`none` = absent or non-finite); `coolingCoefficient` is read
unguarded on line 592 and is modelled as a plain real. -/
structure FluidProps where
  specificHeat : Option ℝ
  heatOfVaporization : Option ℝ
  boilingPointSeaLevel : Option ℝ
  altitudeLapseRate : Option ℝ
  antoineCoefficients : Option AntoineCoeffs
  boilingPointElevation : Option ℝ
  vanHoffFactor : Option ℝ
  molality : Option ℝ
  coolingCoefficient : ℝ
  canBoil : Bool

/-- Embedded from `calculateDynamicKb` (`App.jsx` lines 294-304):
`Kb = (R·Tb²·Msolvent)/ΔHvap` with `Tb` in Kelvin, molar mass converted from
g/mol to kg/mol and the heat of vaporization from kJ/mol to J/mol. -/
noncomputable def calculateDynamicKb (boilingTempC solventMolarMass heatOfVapKJ : ℝ) : ℝ :=
  (8.314 * (boilingTempC + 273.15) * (boilingTempC + 273.15) * (solventMolarMass / 1000))
    / (heatOfVapKJ * 1000)

/-- Embedded from `calculateBoilingPointElevation` (`App.jsx` lines
316-338): with finite `vanHoffFactor` and `molality` the elevation is
`i·Kb·m` at the dynamic water-solvent `Kb` (defaults 18.015 g/mol,
40.66 kJ/mol, line 332); otherwise the static `boilingPointElevation`
field if finite, else 0. -/
noncomputable def calculateBoilingPointElevation (baseBoilingPointC : ℝ)
    (solutionProps : Option FluidProps) : ℝ :=
  match solutionProps with
  | none => 0
  | some p =>
    match p.vanHoffFactor, p.molality with
    | some vanHoff, some molal =>
        vanHoff * calculateDynamicKb baseBoilingPointC 18.015 40.66 * molal
    | _, _ => p.boilingPointElevation.getD 0

/-- Result record of `calculateBoilingPoint` (`App.jsx` lines 174-180 and
200-206), with `verifiedRange` flattened into `min`/`max` fields. -/
structure BoilingPointResult where
  temperature : ℝ
  isExtrapolated : Bool
  verifiedRangeMin : Option ℝ
  verifiedRangeMax : Option ℝ
  baseBoilingPoint : ℝ
  elevation : ℝ

/-- Embedded from `calculateBoilingPoint` (`App.jsx` lines 155-207),
restricted to finite real altitudes (the `null`/`undefined`/`NaN` guard of
line 161 is handled by `jsCalculateBoilingPoint` below).  Antoine first
(when it solves, its temperature in ℝ is always "finite"); otherwise the
linear lapse fallback with dynamic elevation.  Note the source's
`if (fluidProps.antoineCoefficients)` pre-check is subsumed: with absent
coefficients `solveAntoineEquation` itself returns `null` and the fallback
runs either way. -/
noncomputable def calculateBoilingPoint (altitude : ℝ)
    (fluidProps : Option FluidProps) : Option BoilingPointResult :=
  match fluidProps with
  | none => none
  | some p =>
    match p.boilingPointSeaLevel with
    | none => none
    | some bpSea =>
      let atmosphericPressure := calculatePressure altitude
      match solveAntoineEquation atmosphericPressure p.antoineCoefficients with
      | some ar =>
          let elevation := calculateBoilingPointElevation ar.temperature (some p)
          some ⟨ar.temperature + elevation, ar.isExtrapolated,
                ar.verifiedRangeMin, ar.verifiedRangeMax, ar.temperature, elevation⟩
      | none =>
          let lapseRate := p.altitudeLapseRate.getD TEMP_LAPSE_RATE
          let temperatureDrop := altitude * lapseRate
          let baseBoilingPoint := bpSea - temperatureDrop
          let elevation := calculateBoilingPointElevation baseBoilingPoint (some p)
          some ⟨baseBoilingPoint + elevation, false, none, none,
                baseBoilingPoint, elevation⟩

/-- JavaScript altitude argument values for `calculateBoilingPoint`,
restricted to the inputs the claims exercise (finite numbers and the three
values its line-161 guard normalises to 0; infinite altitudes, which the
guard would pass through into the fallback arithmetic, are outside this
embedding's domain because no claim needs them for this function). -/
inductive JSMaybeNum where
  | null
  | undefined
  | nan
  | num (x : ℝ)

/-- Embedded from `calculateBoilingPoint` (`App.jsx` lines 155-207) with its
line-161 altitude guard: `null`, `undefined` and `NaN` are replaced by 0
before any computation. -/
noncomputable def jsCalculateBoilingPoint (altitude : JSMaybeNum)
    (fluidProps : Option FluidProps) : Option BoilingPointResult :=
  match altitude with
  | .null | .undefined | .nan => calculateBoilingPoint 0 fluidProps
  | .num x => calculateBoilingPoint x fluidProps

/-- Embedded from `calculateHeatingEnergy` (`App.jsx` lines 366-378):
`Q = m·c·ΔT` with the mass converted to grams.  The JS function reads
`fluidProps.specificHeat` directly; here the specific heat is passed as the
value that `applyHeatEnergy`'s guard has already established as finite. -/
noncomputable def calculateHeatingEnergy (mass tempStart tempEnd specificHeat : ℝ) : ℝ :=
  mass * 1000 * specificHeat * (tempEnd - tempStart)

/-- Result record of `applyHeatEnergy` (`App.jsx` lines 412-416, 430-434,
449-453). -/
structure HeatResult where
  newTemp : ℝ
  energyToVaporization : ℝ
  steamGenerated : ℝ

/-- Embedded from `applyHeatEnergy` (`App.jsx` lines 410-454).  Guard: no-op
when `fluidProps?.specificHeat` is not finite or `mass ≤ 0`.  Sensible heat:
`potentialNewTemp = currentTemp + energy/(mass_g·c)`.
`canBoil = Number.isFinite(boilingPoint) && Number.isFinite(hv) && hv > 0`;
below boiling (or when boiling is impossible) the new temperature is
returned with zero phase change, otherwise the energy is split at the exact
boiling threshold and the surplus becomes vapor, floored at 0. -/
noncomputable def applyHeatEnergy (mass currentTemp energyJoules : ℝ)
    (boilingPoint : Option ℝ) (fluidProps : Option FluidProps) : HeatResult :=
  match fluidProps with
  | none => ⟨currentTemp, 0, 0⟩
  | some p =>
    match p.specificHeat with
    | none => ⟨currentTemp, 0, 0⟩
    | some c =>
      if mass ≤ 0 then ⟨currentTemp, 0, 0⟩
      else
        let massGrams := mass * 1000
        let tempIncrease := energyJoules / (massGrams * c)
        let potentialNewTemp := currentTemp + tempIncrease
        match boilingPoint, p.heatOfVaporization with
        | some bp, some hv =>
          if 0 < hv then
            if potentialNewTemp < bp then ⟨potentialNewTemp, 0, 0⟩
            else
              let energyToBoiling := calculateHeatingEnergy mass currentTemp bp c
              let remainingEnergy := energyJoules - energyToBoiling
              let steamGenerated := remainingEnergy / (hv * 1000)
              ⟨bp, remainingEnergy, max 0 steamGenerated⟩
          else ⟨potentialNewTemp, 0, 0⟩
        | _, _ => ⟨potentialNewTemp, 0, 0⟩

/-- Simulation state record for `simulateTimeStep` (`App.jsx` lines
552-616).  The JS state is an open object updated by spread; the fields
modelled are exactly those the function reads or writes.  `residueMass` is
`Option ℝ` because the source reads it through `Number.isFinite` (line 554,
defaulting to 0); the per-tick output fields (`steamGenerated`,
`energyToVaporization`, `isBoiling`, `allEvaporated`, `isExtrapolated`,
`verifiedRange`) are carried in the state because the spread copies them
through on the paths that do not recompute them. -/
structure SimState where
  waterMass : ℝ
  temperature : ℝ
  altitude : ℝ
  residueMass : Option ℝ
  energyToVaporization : ℝ
  steamGenerated : ℝ
  isBoiling : Bool
  allEvaporated : Bool
  isExtrapolated : Bool
  verifiedRangeMin : Option ℝ
  verifiedRangeMax : Option ℝ

/-- Embedded from `simulateTimeStep` (`App.jsx` lines 552-616).
1. terminal guard: `waterMass ≤ 0` or `evaporableMass ≤ 0` returns the
   spread state with only `allEvaporated` recomputed;
2. missing `fluidProps` returns a plain copy of the state;
3. boiling point resolved once at the current altitude;
4. heating (only when `heatInputWatts > 0`) via `applyHeatEnergy` with
   energy `heatInputWatts·deltaTime`;
5. Newton cooling (only when the temperature after heating is above ambient
   and `heatInputWatts ≤ 0`), floored at ambient;
6. mass update capped by the evaporable mass and floored at the residue;
7. flags recomputed except `allEvaporated`, which the spread carries over. -/
noncomputable def simulateTimeStep (state : SimState)
    (heatInputWatts deltaTime : ℝ) (fluidProps : Option FluidProps) : SimState :=
  let residueMass := state.residueMass.getD 0
  let evaporableMass := max 0 (state.waterMass - residueMass)
  if state.waterMass ≤ 0 ∨ evaporableMass ≤ 0 then
    { state with allEvaporated := if evaporableMass ≤ 0 then true else false }
  else
    match fluidProps with
    | none => state
    | some p =>
      let boilingPointResult := calculateBoilingPoint state.altitude (some p)
      let boilingPoint : Option ℝ := boilingPointResult.map (·.temperature)
      let canBoil : Bool := p.canBoil && boilingPoint.isSome
      let result : HeatResult :=
        if 0 < heatInputWatts then
          applyHeatEnergy state.waterMass state.temperature
            (heatInputWatts * deltaTime) boilingPoint (some p)
        else ⟨state.temperature, 0, 0⟩
      let heatedTemp := result.newTemp
      let currentTemp :=
        if ROOM_TEMPERATURE < heatedTemp ∧ heatInputWatts ≤ 0 then
          max (heatedTemp - p.coolingCoefficient * (heatedTemp - ROOM_TEMPERATURE) * deltaTime)
            ROOM_TEMPERATURE
        else heatedTemp
      let steamGenerated :=
        if canBoil then min result.steamGenerated evaporableMass else 0
      let nextWaterMass := max (state.waterMass - steamGenerated) residueMass
      let isBoiling : Bool :=
        canBoil &&
          (match boilingPoint with
           | some bp => if bp ≤ currentTemp then true else false
           | none => false) &&
          (if 0 < steamGenerated then true else false)
      { state with
        temperature := currentTemp
        waterMass := nextWaterMass
        energyToVaporization := result.energyToVaporization
        steamGenerated := steamGenerated
        isBoiling := isBoiling
        isExtrapolated := (boilingPointResult.map (·.isExtrapolated)).getD false
        verifiedRangeMin :=
          match boilingPointResult with
          | some r => r.verifiedRangeMin
          | none => none
        verifiedRangeMax :=
          match boilingPointResult with
          | some r => r.verifiedRangeMax
          | none => none }

/-- C1, counterexample to the claim as stated: 20000 m is strictly above
11000 m, yet the computed temperature there (158.15 K) is still positive,
so the ISA formula keeps running and returns a value strictly below (hence
different from) `calculatePressure 11000`. -/
theorem pressure_plateau_at_11km_cex :
    (11000:ℝ) < 20000 ∧ calculatePressure 20000 ≠ calculatePressure 11000 :=
  ⟨by norm_num, ne_of_lt (pressure_lt_clamp (by norm_num) (by norm_num))⟩

/-- C1 (amended): the clamp fires exactly where the computed temperature
`288.15 - 0.0065·a` is nonpositive (a ≥ 288.15/0.0065 ≈ 44330.8 m), and
there it returns exactly `calculatePressure 11000` (the value the source
comments call ~22632 Pa); strictly between 11000 m and that threshold the
ISA formula continues and stays strictly below the 11 km value, so there is
no plateau starting at 11 km. -/
theorem pressure_plateau_at_T_nonpos :
    (∀ a : ℝ, 288.15 - 0.0065 * a ≤ 0 →
        calculatePressure a = calculatePressure 11000) ∧
    (∀ a : ℝ, 11000 < a → 0 < 288.15 - 0.0065 * a →
        calculatePressure a < calculatePressure 11000) :=
  ⟨fun _ h => pressure_clamp_eq h, fun _ h1 h2 => pressure_lt_clamp h1 h2⟩

/-- Witness for C1: 50000 m is past the clamp threshold and agrees with the
11 km value; 20000 m is strictly below it. -/
theorem pressure_plateau_at_T_nonpos_witness :
    calculatePressure 50000 = calculatePressure 11000 ∧
    calculatePressure 20000 < calculatePressure 11000 :=
  ⟨pressure_plateau_at_T_nonpos.1 50000 (by norm_num),
   pressure_plateau_at_T_nonpos.2 20000 (by norm_num) (by norm_num)⟩

/-- C2, counterexample to the claim as stated: monotonicity fails across the
clamp threshold: at 44000 m the ISA formula gives an astronomically small
pressure, while at 45000 m the `T ≤ 0` clamp jumps back up to the 11 km
value. -/
theorem pressure_mono_all_altitudes_cex :
    (0:ℝ) ≤ 44000 ∧ (44000:ℝ) ≤ 45000 ∧
    calculatePressure 44000 < calculatePressure 45000 := by
  refine ⟨by norm_num, by norm_num, ?_⟩
  rw [pressure_clamp_eq (show 288.15 - 0.0065 * 45000 ≤ 0 by norm_num)]
  exact pressure_lt_clamp (by norm_num) (by norm_num)

/-- C2 (amended): `calculatePressure` is monotonically non-increasing on the
altitudes whose computed temperature stays positive (0 ≤ a < 44330.8 m),
and `calculatePressure 0 = 101325` exactly; monotonicity does not extend
across the `T ≤ 0` clamp threshold. -/
theorem pressure_mono_below_clamp_and_sea_level :
    (∀ a1 a2 : ℝ, 0 ≤ a1 → a1 ≤ a2 → 0 < 288.15 - 0.0065 * a2 →
        calculatePressure a2 ≤ calculatePressure a1) ∧
    calculatePressure 0 = 101325 :=
  ⟨fun _ _ h0 h12 h2 => pressure_mono h0 h12 h2, pressure_zero⟩

/-- Witness for C2: monotonicity at 1000 m ≤ 2000 m, plus the sea-level
value. -/
theorem pressure_mono_below_clamp_witness :
    calculatePressure 2000 ≤ calculatePressure 1000 ∧
    calculatePressure 0 = 101325 :=
  ⟨pressure_mono_below_clamp_and_sea_level.1 1000 2000
      (by norm_num) (by norm_num) (by norm_num),
   pressure_mono_below_clamp_and_sea_level.2⟩

/-- C9, counterexample to the claim as stated: `Number.isNaN(Infinity)` is
`false`, so a `+Infinity` altitude is not normalised to sea level; it falls
into the `T ≤ 0` branch and returns the 11 km clamp value, which differs
from the sea-level pressure 101325 Pa. -/
theorem nonfinite_altitude_cex :
    jsCalculatePressure JSAltitude.posInf ≠ jsCalculatePressure (JSAltitude.num 0) := by
  have h1 : jsCalculatePressure JSAltitude.posInf
      = JSPressure.num (calculatePressure 11000) := by
    rw [jsCalculatePressure, calculatePressure_11000]
  have h2 : jsCalculatePressure (JSAltitude.num 0)
      = JSPressure.num (calculatePressure 0) := rfl
  rw [h1, h2, pressure_zero]
  simp only [ne_eq, JSPressure.num.injEq]
  exact ne_of_lt clamp_lt_sea_level

/-- C9 (amended): `null`, `undefined` and `NaN` altitudes are treated
exactly as altitude 0 by both `calculatePressure` (giving 101325 Pa)
and `calculateBoilingPoint`, but the infinities are not: a `+Infinity`
altitude yields the 11 km clamp value (strictly below 101325 Pa) and a
`-Infinity` altitude yields `+Infinity`. -/
theorem nonfinite_altitude_amended :
    jsCalculatePressure JSAltitude.null = JSPressure.num 101325 ∧
    jsCalculatePressure JSAltitude.undefined = JSPressure.num 101325 ∧
    jsCalculatePressure JSAltitude.nan = JSPressure.num 101325 ∧
    (∀ props : Option FluidProps,
        jsCalculateBoilingPoint JSMaybeNum.null props
            = calculateBoilingPoint 0 props ∧
        jsCalculateBoilingPoint JSMaybeNum.undefined props
            = calculateBoilingPoint 0 props ∧
        jsCalculateBoilingPoint JSMaybeNum.nan props
            = calculateBoilingPoint 0 props) ∧
    jsCalculatePressure JSAltitude.posInf
        = JSPressure.num (calculatePressure 11000) ∧
    calculatePressure 11000 < 101325 ∧
    jsCalculatePressure JSAltitude.negInf = JSPressure.posInf := by
  refine ⟨?_, ?_, ?_, fun _ => ⟨rfl, rfl, rfl⟩, ?_, clamp_lt_sea_level, rfl⟩
  · rw [show jsCalculatePressure JSAltitude.null
        = JSPressure.num (calculatePressure 0) from rfl, pressure_zero]
  · rw [show jsCalculatePressure JSAltitude.undefined
        = JSPressure.num (calculatePressure 0) from rfl, pressure_zero]
  · rw [show jsCalculatePressure JSAltitude.nan
        = JSPressure.num (calculatePressure 0) from rfl, pressure_zero]
  · rw [jsCalculatePressure, calculatePressure_11000]

/-- C6: whenever `solveAntoineEquation` returns a result, the temperature is
exactly `B/(A - log10(p/133.322)) - C`, not clamped to the verified range;
`isExtrapolated` holds iff the temperature lies strictly below a present
`TminC` or strictly above a present `TmaxC`; and `verifiedRange` reports
exactly the present bounds (`none` for an absent bound). -/
theorem solveAntoine_result_spec (pressurePa : ℝ) (coeffs : AntoineCoeffs)
    (r : AntoineResult)
    (h : solveAntoineEquation pressurePa (some coeffs) = some r) :
    r.temperature
        = coeffs.B / (coeffs.A - Real.logb 10 (pressurePa / 133.322)) - coeffs.C ∧
    (r.isExtrapolated = true ↔
      (∃ tmin, coeffs.TminC = some tmin ∧ r.temperature < tmin) ∨
      (∃ tmax, coeffs.TmaxC = some tmax ∧ tmax < r.temperature)) ∧
    r.verifiedRangeMin = coeffs.TminC ∧ r.verifiedRangeMax = coeffs.TmaxC := by
  rw [solveAntoineEquation] at h
  by_cases h0 : coeffs.A = 0 ∨ coeffs.B = 0 ∨ coeffs.C = 0
  · rw [if_pos h0] at h; exact absurd h (by simp)
  · rw [if_neg h0] at h
    by_cases hden :
        |coeffs.A - Real.logb 10 (pressurePa / 133.322)| < 1e-10
    · rw [if_pos hden] at h; exact absurd h (by simp)
    · rw [if_neg hden] at h
      have hr := (Option.some.injEq _ _).mp h
      subst hr
      refine ⟨rfl, ?_, rfl, rfl⟩
      rcases coeffs.TminC with _ | tmin <;> rcases coeffs.TmaxC with _ | tmax <;>
        simp only [Bool.or_eq_true] <;>
        constructor <;> intro hx
      all_goals
        first
        | (rcases hx with hx | hx <;>
            first
            | (split at hx <;> simp_all)
            | simp_all)
        | (rcases hx with ⟨t, ht, hlt⟩ | ⟨t, ht, hlt⟩ <;> simp_all)
        | simp_all

/-- Witness for C6: at 133.322 Pa the pressure in mmHg is 1, whose log10 is
0, so with coefficients A=2, B=3, C=5 the solver returns `3/2 - 5` with no
bounds and no extrapolation flag. -/
theorem solveAntoine_result_spec_witness :
    ((3:ℝ)/2 - 5
        = 3 / (2 - Real.logb 10 ((133.322:ℝ) / 133.322)) - 5) ∧
    ((false = true) ↔
      (∃ tmin, (none : Option ℝ) = some tmin ∧ (3:ℝ)/2 - 5 < tmin) ∨
      (∃ tmax, (none : Option ℝ) = some tmax ∧ tmax < (3:ℝ)/2 - 5)) ∧
    (none : Option ℝ) = none ∧ (none : Option ℝ) = none := by
  have h : solveAntoineEquation 133.322 (some ⟨2, 3, 5, none, none⟩)
      = some ⟨3/2 - 5, false, none, none⟩ := by
    rw [solveAntoineEquation]
    norm_num [Real.logb_one]
  exact solveAntoine_result_spec 133.322 ⟨2, 3, 5, none, none⟩
    ⟨3/2 - 5, false, none, none⟩ h

/-- C8: a near-zero Antoine denominator makes `solveAntoineEquation` return
`null` (the function is total, nothing is thrown), and
`calculateBoilingPoint` then recovers through the linear fallback:
`baseBoilingPoint = boilingPointSeaLevel - altitude·lapseRate`, plus the
colligative elevation at that base, reported with `isExtrapolated = false`
and a null verified range. -/
theorem antoine_denominator_fallback (alt bpSea : ℝ) (p : FluidProps)
    (coeffs : AntoineCoeffs)
    (hA : p.antoineCoefficients = some coeffs)
    (hB : p.boilingPointSeaLevel = some bpSea)
    (hden : |coeffs.A - Real.logb 10 (calculatePressure alt / 133.322)| < 1e-10) :
    solveAntoineEquation (calculatePressure alt) p.antoineCoefficients = none ∧
    calculateBoilingPoint alt (some p) =
      some ⟨(bpSea - alt * p.altitudeLapseRate.getD TEMP_LAPSE_RATE)
              + calculateBoilingPointElevation
                  (bpSea - alt * p.altitudeLapseRate.getD TEMP_LAPSE_RATE) (some p),
            false, none, none,
            bpSea - alt * p.altitudeLapseRate.getD TEMP_LAPSE_RATE,
            calculateBoilingPointElevation
              (bpSea - alt * p.altitudeLapseRate.getD TEMP_LAPSE_RATE) (some p)⟩ := by
  have h1 : solveAntoineEquation (calculatePressure alt) p.antoineCoefficients
      = none := by
    rw [hA, solveAntoineEquation]
    by_cases h0 : coeffs.A = 0 ∨ coeffs.B = 0 ∨ coeffs.C = 0
    · rw [if_pos h0]
    · rw [if_neg h0, if_pos hden]
  refine ⟨h1, ?_⟩
  simp only [calculateBoilingPoint, hB, h1]

/-- Supporting record for the C8 witness: Antoine coefficients whose `A` is
exactly the log10 of the sea-level pressure in mmHg, so the denominator is
exactly 0 (within any tolerance). -/
noncomputable def degenerateProps : FluidProps :=
  ⟨none, none, some 100, some 0.003,
   some ⟨Real.logb 10 (101325 / 133.322), 1, 1, none, none⟩,
   none, none, none, 0, false⟩

/-- Witness for C8: at sea level (pressure exactly 101325 Pa) with
`degenerateProps` the denominator is exactly zero, the solver yields `null`
and the resolver returns the linear-fallback result 100 °C with no
extrapolation metadata. -/
theorem antoine_denominator_fallback_witness :
    solveAntoineEquation (calculatePressure 0) degenerateProps.antoineCoefficients
        = none ∧
    calculateBoilingPoint 0 (some degenerateProps) =
      some ⟨((100:ℝ) - 0 * (0.003:ℝ))
              + calculateBoilingPointElevation
                  ((100:ℝ) - 0 * (0.003:ℝ)) (some degenerateProps),
            false, none, none,
            (100:ℝ) - 0 * (0.003:ℝ),
            calculateBoilingPointElevation
              ((100:ℝ) - 0 * (0.003:ℝ)) (some degenerateProps)⟩ :=
  antoine_denominator_fallback 0 100 degenerateProps
    ⟨Real.logb 10 (101325 / 133.322), 1, 1, none, none⟩ rfl rfl
    (by rw [pressure_zero]; norm_num)

/-- In every branch `applyHeatEnergy` returns a nonnegative steam mass:
the phase-change branch floors at 0 and all other branches return 0. -/
lemma applyHeatEnergy_steam_nonneg (mass currentTemp energyJoules : ℝ)
    (boilingPoint : Option ℝ) (fluidProps : Option FluidProps) :
    0 ≤ (applyHeatEnergy mass currentTemp energyJoules boilingPoint fluidProps).steamGenerated := by
  rw [applyHeatEnergy.eq_def]
  repeat' split
  all_goals simp only [apply_ite HeatResult.steamGenerated]
  all_goals repeat' split
  all_goals simp [le_max_left]

/-- C3: with positive mass, specific heat and heat of vaporization, applying
energy exactly equal to `mass_g·c·(boilingPoint - currentTemp)` raises the
temperature exactly to the boiling point with zero vaporization energy and
zero steam. -/
theorem applyHeat_exact_threshold (mass currentTemp bp c hv : ℝ) (p : FluidProps)
    (hc : p.specificHeat = some c) (hhv : p.heatOfVaporization = some hv)
    (hm : 0 < mass) (hcpos : 0 < c) (hhvpos : 0 < hv)
    (hbp : currentTemp ≤ bp) :
    applyHeatEnergy mass currentTemp (mass * 1000 * c * (bp - currentTemp))
      (some bp) (some p) = ⟨bp, 0, 0⟩ := by
  have hne : mass * 1000 * c ≠ 0 := by positivity
  have hpot : currentTemp + mass * 1000 * c * (bp - currentTemp) / (mass * 1000 * c)
      = bp := by field_simp
  rw [applyHeatEnergy]
  simp only [hc, hhv]
  rw [if_neg (not_le.mpr hm), if_pos hhvpos, hpot, if_neg (lt_irrefl bp)]
  rw [calculateHeatingEnergy]
  norm_num

/-- Witness for C3: 1 kg of water-like fluid at 20 °C given exactly
`1000·4.186·80 J`: the result is pinned at 100 °C with zero steam. -/
theorem applyHeat_exact_threshold_witness :
    applyHeatEnergy 1 20 (1 * 1000 * 4.186 * (100 - 20)) (some 100)
        (some ⟨some 4.186, some 2257, some 100, none, none, none, none, none, 0.001, true⟩)
      = ⟨100, 0, 0⟩ :=
  applyHeat_exact_threshold 1 20 100 4.186 2257
    ⟨some 4.186, some 2257, some 100, none, none, none, none, none, 0.001, true⟩
    rfl rfl (by norm_num) (by norm_num) (by norm_num) (by norm_num)

/-- C7: with a finite specific heat and positive mass but no way to boil
(no or nonpositive heat of vaporization, or no finite boiling point), all
energy goes to sensible heat: the temperature becomes
`currentTemp + E/(mass_g·c)` (even past the nominal boiling point) with
zero vaporization energy and zero steam. -/
theorem applyHeat_cannot_boil (mass currentTemp energyJoules c : ℝ)
    (boilingPoint : Option ℝ) (p : FluidProps)
    (hc : p.specificHeat = some c) (hm : 0 < mass)
    (hnb : boilingPoint = none ∨ p.heatOfVaporization = none ∨
           ∃ hv, p.heatOfVaporization = some hv ∧ hv ≤ 0) :
    applyHeatEnergy mass currentTemp energyJoules boilingPoint (some p)
      = ⟨currentTemp + energyJoules / (mass * 1000 * c), 0, 0⟩ := by
  rw [applyHeatEnergy]
  simp only [hc]
  rw [if_neg (not_le.mpr hm)]
  rcases hnb with hbp | hhv | ⟨hv, hhv, hvle⟩
  · subst hbp
    rcases p.heatOfVaporization with _ | hv <;> rfl
  · rw [hhv]
    rcases boilingPoint with _ | bp <;> rfl
  · rw [hhv]
    rcases boilingPoint with _ | bp
    · rfl
    · simp only
      rw [if_neg (not_lt.mpr hvle)]

/-- Witness for C7: no boiling point supplied, so 1 MJ into 1 kg of
water-like fluid gives `95 + 1000000/(1000·4.186) ≈ 333.9 °C`, far past the
nominal 100 °C boiling point, with zero steam. -/
theorem applyHeat_cannot_boil_witness :
    applyHeatEnergy 1 95 1000000 none
        (some ⟨some 4.186, some 2257, some 100, none, none, none, none, none, 0.001, true⟩)
      = ⟨95 + 1000000 / (1 * 1000 * 4.186), 0, 0⟩ :=
  applyHeat_cannot_boil 1 95 1000000 4.186 none
    ⟨some 4.186, some 2257, some 100, none, none, none, none, none, 0.001, true⟩
    rfl (by norm_num) (Or.inl rfl)

/-- The main (non-degenerate) path of `simulateTimeStep` leaves the
`allEvaporated` field exactly as the input spread provided it. -/
lemma simulateTimeStep_allEvaporated_frame (s : SimState) (heat dt : ℝ)
    (p : FluidProps) (h0 : 0 ≤ s.residueMass.getD 0)
    (h1 : 0 < s.waterMass - s.residueMass.getD 0) :
    (simulateTimeStep s heat dt (some p)).allEvaporated = s.allEvaporated := by
  have hw : 0 < s.waterMass := by linarith
  have hevap : (0:ℝ) < max 0 (s.waterMass - s.residueMass.getD 0) :=
    lt_max_of_lt_right h1
  have hg : ¬ (s.waterMass ≤ 0 ∨ max 0 (s.waterMass - s.residueMass.getD 0) ≤ 0) := by
    push_neg
    exact ⟨hw, hevap⟩
  simp only [simulateTimeStep]
  rw [if_neg hg]

/-- A tick whose evaporable mass is nonpositive hits the terminal guard and
reports `allEvaporated = true`. -/
lemma simulateTimeStep_terminal_guard (s : SimState) (heat dt : ℝ)
    (props : Option FluidProps) (h1 : s.waterMass - s.residueMass.getD 0 ≤ 0) :
    (simulateTimeStep s heat dt props).allEvaporated = true := by
  have hevap : max 0 (s.waterMass - s.residueMass.getD 0) ≤ 0 :=
    max_le (le_refl 0) h1
  simp only [simulateTimeStep]
  rw [if_pos (Or.inr hevap), if_pos hevap]

/-- C10: on every tick that reaches the main path (positive evaporable mass
with a nonnegative residue, substance present), the returned
`allEvaporated` is not recomputed: the spread carries the input value
through, even if that same tick drains the fluid down to the residue; it
only becomes `true` on a call whose evaporable mass is already
nonpositive, via the early terminal guard. -/
theorem allEvaporated_passthrough :
    (∀ (s : SimState) (heat dt : ℝ) (p : FluidProps),
        0 ≤ s.residueMass.getD 0 → 0 < s.waterMass - s.residueMass.getD 0 →
        (simulateTimeStep s heat dt (some p)).allEvaporated = s.allEvaporated) ∧
    (∀ (s : SimState) (heat dt : ℝ) (props : Option FluidProps),
        s.waterMass - s.residueMass.getD 0 ≤ 0 →
        (simulateTimeStep s heat dt props).allEvaporated = true) :=
  ⟨fun s heat dt p h0 h1 => simulateTimeStep_allEvaporated_frame s heat dt p h0 h1,
   fun s heat dt props h1 => simulateTimeStep_terminal_guard s heat dt props h1⟩

/-- Supporting record for simulator witnesses: a substance with no boiling
data at all (the resolver returns `null`), so ticks stay on the simplest
main path. -/
def minimalProps : FluidProps :=
  ⟨none, none, none, none, none, none, none, none, 0.5, false⟩

/-- Witness for C10: a 1 kg state over a 0.2 kg residue with
`allEvaporated = true` carried in: the main-path tick returns it unchanged,
and a state already at its residue returns `true` from the guard. -/
theorem allEvaporated_passthrough_witness :
    (simulateTimeStep ⟨1, 30, 0, some 0.2, 0, 0, false, true, false, none, none⟩
        0 0.1 (some minimalProps)).allEvaporated
      = (SimState.mk 1 30 0 (some 0.2) 0 0 false true false none none).allEvaporated ∧
    (simulateTimeStep ⟨0.2, 30, 0, some 0.2, 0, 0, false, false, false, none, none⟩
        0 0.1 (some minimalProps)).allEvaporated = true :=
  ⟨allEvaporated_passthrough.1 ⟨1, 30, 0, some 0.2, 0, 0, false, true, false, none, none⟩
      0 0.1 minimalProps (by norm_num [Option.getD]) (by norm_num [Option.getD]),
   allEvaporated_passthrough.2 ⟨0.2, 30, 0, some 0.2, 0, 0, false, false, false, none, none⟩
      0 0.1 (some minimalProps) (by norm_num [Option.getD])⟩

/-- C4, counterexample to the claim as stated: an input with
`fluidMass = residueMass = 1` (so `0 ≤ residueMass ≤ fluidMass` holds, but
the evaporable mass is 0) and a stale `steamGenerated = 0.5` carried in the
state hits the early terminal guard, which spreads the input state back
out: the returned `steamGenerated` is 0.5, strictly greater than the
evaporable mass `1 - 1 = 0`. -/
theorem mass_residue_invariant_cex :
    (0:ℝ) ≤ 1 ∧ (1:ℝ) ≤ 1 ∧
    (1:ℝ) - 1 <
      (simulateTimeStep ⟨1, 50, 0, some 1, 0, 0.5, false, false, false, none, none⟩
          1000 0.1 none).steamGenerated := by
  refine ⟨by norm_num, by norm_num, ?_⟩
  have h : (simulateTimeStep ⟨1, 50, 0, some 1, 0, 0.5, false, false, false, none, none⟩
      1000 0.1 none).steamGenerated = 0.5 := by
    simp only [simulateTimeStep]
    norm_num
  rw [h]
  norm_num

/-- C4 (amended): on every tick that reaches the mass update (nonnegative
residue, positive evaporable mass, substance present), the returned steam
lies in `[0, fluidMass - residueMass]` and the returned fluid mass lies in
`[residueMass, fluidMass]`; degenerate ticks return the mass unchanged but
also spread the input's stale `steamGenerated` field back out. -/
theorem mass_residue_invariant (s : SimState) (heat dt : ℝ) (p : FluidProps)
    (h0 : 0 ≤ s.residueMass.getD 0)
    (h1 : 0 < s.waterMass - s.residueMass.getD 0) :
    s.residueMass.getD 0 ≤ (simulateTimeStep s heat dt (some p)).waterMass ∧
    (simulateTimeStep s heat dt (some p)).waterMass ≤ s.waterMass ∧
    0 ≤ (simulateTimeStep s heat dt (some p)).steamGenerated ∧
    (simulateTimeStep s heat dt (some p)).steamGenerated
        ≤ s.waterMass - s.residueMass.getD 0 := by
  have hw : 0 < s.waterMass := by linarith
  have hgt : (0:ℝ) < max 0 (s.waterMass - s.residueMass.getD 0) :=
    lt_max_of_lt_right h1
  have hg : ¬ (s.waterMass ≤ 0 ∨ max 0 (s.waterMass - s.residueMass.getD 0) ≤ 0) := by
    push_neg
    exact ⟨hw, hgt⟩
  have hevap : max 0 (s.waterMass - s.residueMass.getD 0)
      = s.waterMass - s.residueMass.getD 0 := max_eq_right h1.le
  have hres : 0 ≤ (if 0 < heat then
      applyHeatEnergy s.waterMass s.temperature (heat * dt)
        ((calculateBoilingPoint s.altitude (some p)).map (·.temperature)) (some p)
    else ⟨s.temperature, 0, 0⟩).steamGenerated := by
    split
    · exact applyHeatEnergy_steam_nonneg _ _ _ _ _
    · exact le_refl 0
  simp only [simulateTimeStep]
  rw [if_neg hg]
  simp only [hevap]
  constructor
  · exact le_max_right _ _
  constructor
  · refine max_le ?_ (by linarith)
    have : 0 ≤ (if (p.canBoil && ((calculateBoilingPoint s.altitude (some p)).map
        (·.temperature)).isSome) = true then
          min (if 0 < heat then
              applyHeatEnergy s.waterMass s.temperature (heat * dt)
                ((calculateBoilingPoint s.altitude (some p)).map (·.temperature))
                (some p)
            else ⟨s.temperature, 0, 0⟩).steamGenerated
            (s.waterMass - s.residueMass.getD 0)
        else 0) := by
      split
      · exact le_min hres h1.le
      · exact le_refl 0
    linarith
  constructor
  · split
    · exact le_min hres h1.le
    · exact le_refl 0
  · split
    · exact min_le_right _ _
    · exact h1.le

/-- Witness for C4: a concrete main-path tick (1 kg over a 0.2 kg residue,
no heat) keeps the mass in `[0.2, 1]` and the steam in `[0, 0.8]`. -/
theorem mass_residue_invariant_witness :
    (SimState.mk 1 30 0 (some 0.2) 0 0 false false false none none).residueMass.getD 0
        ≤ (simulateTimeStep ⟨1, 30, 0, some 0.2, 0, 0, false, false, false, none, none⟩
            0 0.1 (some minimalProps)).waterMass ∧
    (simulateTimeStep ⟨1, 30, 0, some 0.2, 0, 0, false, false, false, none, none⟩
        0 0.1 (some minimalProps)).waterMass ≤ 1 ∧
    0 ≤ (simulateTimeStep ⟨1, 30, 0, some 0.2, 0, 0, false, false, false, none, none⟩
        0 0.1 (some minimalProps)).steamGenerated ∧
    (simulateTimeStep ⟨1, 30, 0, some 0.2, 0, 0, false, false, false, none, none⟩
        0 0.1 (some minimalProps)).steamGenerated
      ≤ (1:ℝ) - (SimState.mk 1 30 0 (some 0.2) 0 0 false false false none none).residueMass.getD 0 :=
  mass_residue_invariant ⟨1, 30, 0, some 0.2, 0, 0, false, false, false, none, none⟩
    0 0.1 minimalProps (by norm_num [Option.getD]) (by norm_num [Option.getD])

/-- On a main-path tick with no heat input and a temperature above ambient,
the new temperature is the Newton cooling step floored at ambient. -/
lemma cooling_step_formula (s : SimState) (heat dt : ℝ) (p : FluidProps)
    (hheat : heat ≤ 0) (hT : ROOM_TEMPERATURE < s.temperature)
    (h0 : 0 ≤ s.residueMass.getD 0)
    (h1 : 0 < s.waterMass - s.residueMass.getD 0) :
    (simulateTimeStep s heat dt (some p)).temperature
      = max (s.temperature - p.coolingCoefficient * (s.temperature - ROOM_TEMPERATURE) * dt)
          ROOM_TEMPERATURE := by
  have hw : 0 < s.waterMass := by linarith
  have hgt : (0:ℝ) < max 0 (s.waterMass - s.residueMass.getD 0) :=
    lt_max_of_lt_right h1
  have hg : ¬ (s.waterMass ≤ 0 ∨ max 0 (s.waterMass - s.residueMass.getD 0) ≤ 0) := by
    push_neg
    exact ⟨hw, hgt⟩
  simp only [simulateTimeStep]
  rw [if_neg hg]
  dsimp only
  rw [if_neg (not_lt.mpr hheat)]
  dsimp only
  rw [if_pos ⟨hT, hheat⟩]

/-- With no heat input, no tick (degenerate or not) can take a temperature
that starts at or above ambient to below ambient. -/
lemma cooling_floor (s : SimState) (heat dt : ℝ) (props : Option FluidProps)
    (hheat : heat ≤ 0) (hT : ROOM_TEMPERATURE ≤ s.temperature) :
    ROOM_TEMPERATURE ≤ (simulateTimeStep s heat dt props).temperature := by
  rcases props with _ | p
  · simp only [simulateTimeStep]
    split
    · exact hT
    · exact hT
  · simp only [simulateTimeStep]
    split
    · exact hT
    · dsimp only
      rw [if_neg (not_lt.mpr hheat)]
      dsimp only
      split
      · exact le_max_right _ _
      · exact hT

/-- C5, counterexample to the claim as stated: an empty pot
(`waterMass = 0`) at 100 °C with zero heat input hits the terminal guard
and keeps its temperature, instead of taking the claimed Newton cooling
step `max(100 - 0.5·(100-20)·0.1, 20) = 96`. -/
theorem cooling_step_cex :
    (0:ℝ) ≤ 0 ∧ (20:ℝ) < 100 ∧
    (simulateTimeStep ⟨0, 100, 0, some 0, 0, 0, false, false, false, none, none⟩
        0 0.1 (some minimalProps)).temperature
      ≠ max (100 - minimalProps.coolingCoefficient * (100 - 20) * 0.1) 20 := by
  refine ⟨le_refl 0, by norm_num, ?_⟩
  have h : (simulateTimeStep ⟨0, 100, 0, some 0, 0, 0, false, false, false, none, none⟩
      0 0.1 (some minimalProps)).temperature = 100 := by
    simp only [simulateTimeStep]
    norm_num
  rw [h,
    show (100:ℝ) - minimalProps.coolingCoefficient * (100 - 20) * 0.1 = 96 by
      norm_num [minimalProps],
    max_eq_left (by norm_num : (20:ℝ) ≤ 96)]
  norm_num

/-- C5 (amended): on every main-path tick (nonnegative residue, positive
evaporable mass, substance present) with `heatInputWatts ≤ 0` and input
temperature above ambient (20 °C), the output temperature is exactly
`max(T - coolingCoefficient·(T - 20)·deltaTime, 20)`; and on every tick
whatsoever with `heatInputWatts ≤ 0` starting at or above 20 °C the output
temperature never drops below 20 °C, so no sequence of such ticks can go
below ambient. -/
theorem cooling_step_amended :
    (∀ (s : SimState) (heat dt : ℝ) (p : FluidProps),
        heat ≤ 0 → (20:ℝ) < s.temperature →
        0 ≤ s.residueMass.getD 0 → 0 < s.waterMass - s.residueMass.getD 0 →
        (simulateTimeStep s heat dt (some p)).temperature
          = max (s.temperature - p.coolingCoefficient * (s.temperature - 20) * dt) 20) ∧
    (∀ (s : SimState) (heat dt : ℝ) (props : Option FluidProps),
        heat ≤ 0 → (20:ℝ) ≤ s.temperature →
        (20:ℝ) ≤ (simulateTimeStep s heat dt props).temperature) :=
  ⟨fun s heat dt p hheat hT h0 h1 => cooling_step_formula s heat dt p hheat hT h0 h1,
   fun s heat dt props hheat hT => cooling_floor s heat dt props hheat hT⟩

/-- Witness for C5: 1 kg at 100 °C, no heat input: one tick cools to
`max(100 - 0.5·80·0.1, 20)` and in particular stays at or above 20 °C. -/
theorem cooling_step_amended_witness :
    (simulateTimeStep ⟨1, 100, 0, some 0, 0, 0, false, false, false, none, none⟩
        0 0.1 (some minimalProps)).temperature
      = max (100 - minimalProps.coolingCoefficient * (100 - 20) * 0.1) 20 ∧
    (20:ℝ) ≤ (simulateTimeStep ⟨1, 100, 0, some 0, 0, 0, false, false, false, none, none⟩
        0 0.1 (some minimalProps)).temperature :=
  ⟨cooling_step_amended.1 ⟨1, 100, 0, some 0, 0, 0, false, false, false, none, none⟩
      0 0.1 minimalProps (by norm_num) (by norm_num)
      (by norm_num [Option.getD]) (by norm_num [Option.getD]),
   cooling_step_amended.2 ⟨1, 100, 0, some 0, 0, 0, false, false, false, none, none⟩
      0 0.1 (some minimalProps) (by norm_num) (by norm_num)⟩

end BoilingWater
